import Mathlib

/-!
Shallow embedding of the `financial-analysis-llms` repository (python):
  - `src/backend/project-1/pinecone_utils.py`  (ingestion pipeline, class PineconeUtils)
  - `src/backend/project-1/flask/app.py`       (query pipeline, /explore endpoint)

External collaborators (market-data provider, embedding model, vector index,
completion model) are opaque in the source and are modelled as function-valued
parameters (`Env`, `index`, `embed`, `model`).  File I/O on the two checkpoint
logs is modelled by an explicit `FileSystem` value threaded through the state.
Python exceptions are modelled with `Except`; a Python `dict` parsed from JSON
is modelled with `Option`-valued field access (a missing key raising `KeyError`
becomes the `none` branch).
-/

namespace FinLLM

/-- JSON-like values: the payloads of metadata dictionaries, provider records
and pinecone filters.  Python `None` is `Value.null`. -/
inductive Value where
  | null
  | bool (b : Bool)
  | num (n : Int)
  | str (s : String)
  | arr (items : List Value)
  | obj (fields : List (String × Value))

/-- Python `dict` key lookup on an association list (first binding wins). -/
def lookupField (fields : List (String × Value)) (key : String) : Option Value :=
  match fields with
  | [] => none
  | (k, v) :: rest => if k = key then some v else lookupField rest key

/-! ## Ingestion pipeline (`pinecone_utils.py`) -/

/-- The sentinel string used as the `dict.get` default in `_get_stock_info`. -/
def infoNotAvailable : Value := Value.str "Information not available"

/-- Embeds the `properties` dictionary literal of `PineconeUtils._get_stock_info`
(pinecone_utils.py lines 115-129).  `stock_info` is the provider record
`yf.Ticker(symbol).info`, modelled as a partial map from key to value; Python
`dict.get(k, default)` is `(stock_info k).getD default` and the one-argument
`dict.get(k)` (used for `"Business Summary"`) defaults to `None`, i.e.
`Value.null`. -/
def stockProperties (stock_info : String → Option Value) : List (String × Value) :=
  [ ("Ticker", (stock_info "symbol").getD infoNotAvailable),
    ("Name", (stock_info "longName").getD infoNotAvailable),
    ("Business Summary", (stock_info "longBusinessSummary").getD Value.null),
    ("City", (stock_info "city").getD infoNotAvailable),
    ("State", (stock_info "state").getD infoNotAvailable),
    ("Country", (stock_info "country").getD infoNotAvailable),
    ("Industry", (stock_info "industry").getD infoNotAvailable),
    ("Sector", (stock_info "sector").getD infoNotAvailable),
    ("Market Cap", (stock_info "marketCap").getD infoNotAvailable),
    ("Volume", (stock_info "averageVolume").getD infoNotAvailable),
    ("PE Ratio", (stock_info "trailingPE").getD infoNotAvailable),
    ("Price", (stock_info "currentPrice").getD infoNotAvailable),
    ("Analyst Recommendation", (stock_info "recommendationKey").getD infoNotAvailable) ]

/-- The two checkpoint log files.  `none` models an absent file
(`FileNotFoundError` on open for reading), `some lines` a file whose content is
the given list of lines. -/
structure FileSystem where
  successFile : Option (List String)
  failureFile : Option (List String)
deriving DecidableEq

/-- Python `str.strip()`: remove leading and trailing whitespace. -/
def pyStrip (s : String) : String :=
  ⟨((s.data.dropWhile Char.isWhitespace).reverse.dropWhile Char.isWhitespace).reverse⟩

/-- The list comprehension `[line.strip() for line in f if line.strip()]` used
by `_load_history` on each log file: keep each line's stripped form when it is
non-empty. -/
def parseTickerLines (lines : List String) : List String :=
  lines.filterMap (fun line => if pyStrip line = "" then none else some (pyStrip line))

/-- Embeds `PineconeUtils._load_history` (pinecone_utils.py lines 67-96): each
of the two files is read independently inside its own try/except; a
`FileNotFoundError` (the `none` branch) leaves the corresponding list at its
initial empty value, and the function always returns the pair. -/
def loadHistory (fs : FileSystem) : List String × List String :=
  let successful_tickers : List String :=
    match fs.successFile with
    | none => []
    | some lines => parseTickerLines lines
  let unsuccessful_tickers : List String :=
    match fs.failureFile with
    | none => []
    | some lines => parseTickerLines lines
  (successful_tickers, unsuccessful_tickers)

/-- Opaque external collaborators of the ingestion pipeline:
`tickerInfo symbol` is the outcome of `yf.Ticker(symbol).info` (a provider
record, or a raised exception), and `upsertResult page_content metadata` is the
outcome of `PineconeVectorStore.from_documents` on the single document built
from them (which internally embeds `page_content`; an exception from either the
embedding or the index write is an `Except.error`). -/
structure Env where
  tickerInfo : String → Except String (String → Option Value)
  upsertResult : Value → List (String × Value) → Except String Unit

/-- Embeds `PineconeUtils._get_stock_info` (pinecone_utils.py lines 98-131):
fetch the provider record for `symbol`, then build the `properties` dict. -/
def getStockInfo (env : Env) (symbol : String) : Except String (List (String × Value)) :=
  match env.tickerInfo symbol with
  | Except.error e => Except.error e
  | Except.ok stock_info => Except.ok (stockProperties stock_info)

/-- Mutable state touched by `_process_stock`: the two in-memory tracking lists
of the `PineconeUtils` instance and the two on-disk checkpoint logs. -/
structure IngestState where
  successful_tickers : List String
  unsuccessful_tickers : List String
  fs : FileSystem
deriving DecidableEq

/-- Externally visible work performed for a symbol: the market-data fetch
(`yf.Ticker(...).info`) and the embed-and-upsert call
(`PineconeVectorStore.from_documents`, which embeds the description and writes
the vector entry as one call). -/
inductive IEffect where
  | fetch (symbol : String)
  | upsert (symbol : String)
deriving DecidableEq

/-- Appending one line to a log file opened in mode `'a'`: a missing file is
created. -/
def appendLine (file : Option (List String)) (line : String) : Option (List String) :=
  some (file.getD [] ++ [line])

/-- The `except` block of `_process_stock` (pinecone_utils.py lines 162-168):
append the ticker to `unsuccessful_tickers.txt`, then to the in-memory
`self.unsuccessful_tickers` list. -/
def trackFailure (st : IngestState) (stock_ticker : String) : IngestState :=
  { st with
      unsuccessful_tickers := st.unsuccessful_tickers ++ [stock_ticker],
      fs := { st.fs with failureFile := appendLine st.fs.failureFile stock_ticker } }

/-- The success tail of the `try` block of `_process_stock` (lines 154-158):
append the ticker to `successful_tickers.txt`, then to the in-memory
`self.successful_tickers` list. -/
def trackSuccess (st : IngestState) (stock_ticker : String) : IngestState :=
  { st with
      successful_tickers := st.successful_tickers ++ [stock_ticker],
      fs := { st.fs with successFile := appendLine st.fs.successFile stock_ticker } }

/-- Embeds `PineconeUtils._process_stock` (pinecone_utils.py lines 133-170).
Returns the result message, the updated state, and the list of external-work
effects actually performed.  The skip check `stock_ticker in
self.successful_tickers` is a membership test on the in-memory list; every
exception inside the `try` block (fetch, the `stock_data['Business Summary']`
access, embedding, index upsert) falls into the single `except` block, which
records the failure and returns an ERROR message instead of re-raising. -/
def processStock (env : Env) (st : IngestState) (stock_ticker : String) :
    String × IngestState × List IEffect :=
  if st.successful_tickers.contains stock_ticker then
    ("Already processed " ++ stock_ticker, st, [])
  else
    match getStockInfo env stock_ticker with
    | Except.error e =>
        ("ERROR processing " ++ stock_ticker ++ ": " ++ e,
         trackFailure st stock_ticker,
         [IEffect.fetch stock_ticker])
    | Except.ok stock_data =>
        match lookupField stock_data "Business Summary" with
        | none =>
            ("ERROR processing " ++ stock_ticker ++ ": KeyError",
             trackFailure st stock_ticker,
             [IEffect.fetch stock_ticker])
        | some stock_description =>
            match env.upsertResult stock_description stock_data with
            | Except.error e =>
                ("ERROR processing " ++ stock_ticker ++ ": " ++ e,
                 trackFailure st stock_ticker,
                 [IEffect.fetch stock_ticker, IEffect.upsert stock_ticker])
            | Except.ok _ =>
                ("Processed " ++ stock_ticker ++ " successfully",
                 trackSuccess st stock_ticker,
                 [IEffect.fetch stock_ticker, IEffect.upsert stock_ticker])

/-- Embeds `PineconeUtils.parallel_process_stocks` (pinecone_utils.py lines
172-195) as one sequential interleaving of the thread pool: one
`_process_stock` task per ticker, results drained and printed, and a task's
ERROR result never aborting the remaining tasks.  Returns the final state, the
result messages, and the concatenated external-work effects. -/
def parallel_process_stocks (env : Env) (st : IngestState) (tickers : List String) :
    IngestState × List String × List IEffect :=
  match tickers with
  | [] => (st, [], [])
  | t :: ts =>
      let r := processStock env st t
      let rest := parallel_process_stocks env r.2.1 ts
      (rest.1, r.1 :: rest.2.1, r.2.2 ++ rest.2.2)

/-! ## Query pipeline (`flask/app.py`) -/

/-- app.py line 14. -/
def INDEX_NAME : String := "stocks"

/-- app.py line 15. -/
def NAMESPACE : String := "stock-descriptions"

/-- The keyword arguments of the `pinecone_index.query(...)` call in
`get_augmented_context` (app.py lines 50-56).  Embedding vectors are opaque to
this code (never inspected numerically), so they are modelled as integer
lists. -/
structure QueryParams where
  nspace : String
  vector : List Int
  filter : Value
  top_k : Nat
  include_metadata : Bool

/-- One element of `top_matches['matches']`; `text` is the stored
`item['metadata']['text']` snippet read by `get_augmented_context`. -/
structure MatchEntry where
  id : String
  text : String

/-- The JSON object parsed from the completion model's reply
(`json.loads(response.choices[0].message.content)`).  `Option` models key
presence: a `dict[key]` access on a `none` field raises `KeyError`. -/
structure FormattedResponse where
  filter : Option Value
  question : Option String

/-- A Python exception escaping the query pipeline. -/
inductive PyErr where
  | keyError (key : String)
deriving DecidableEq

/-- Externally visible calls of the query pipeline: the completion request, the
question-embedding computation, and the vector-index query. -/
inductive QEffect where
  | modelCall (prompt : String)
  | embedCall (text : String)
  | indexQuery (params : QueryParams)

/-- Embeds `get_augmented_context` (app.py lines 40-63), with the vector index
and the embedding model as opaque function parameters.  Returns the bundle (or
the raised exception) together with the external calls made, in order: the
`filter` and `question` keys are read (raising `KeyError` if absent, before any
query), the question is embedded, the index is queried with `top_k=10`, and the
matched snippets are joined (re-truncated to 10 by `context[ : 10]`) inside the
`<CONTEXT>` delimiters. -/
def get_augmented_context (index : QueryParams → List MatchEntry)
    (embed : String → List Int) (formatted_response : FormattedResponse) :
    Except PyErr String × List QEffect :=
  match formatted_response.filter with
  | none => (Except.error (PyErr.keyError "filter"), [])
  | some filter =>
      match formatted_response.question with
      | none => (Except.error (PyErr.keyError "question"), [])
      | some question =>
          let question_embeddings := embed question
          let params : QueryParams :=
            { nspace := NAMESPACE, vector := question_embeddings, filter := filter,
              top_k := 10, include_metadata := true }
          let top_matches := index params
          let context := top_matches.map (fun item => item.text)
          let augmented_context :=
            "<CONTEXT>\n" ++ String.intercalate "\n\n-------\n\n" (context.take 10) ++
              "\n-------\n</CONTEXT>\n\n\n\n"
          (Except.ok augmented_context, [QEffect.embedCall question, QEffect.indexQuery params])

/-- Embeds `get_question` (app.py lines 65-82): reads the `question` key
(raising `KeyError` if absent) and interpolates it into the fixed instruction
template. -/
def get_question (formatted_response : FormattedResponse) : Except PyErr String :=
  match formatted_response.question with
  | none => Except.error (PyErr.keyError "question")
  | some question =>
      Except.ok (String.intercalate "\n"
        [ "",
          "    MY QUESTION:",
          "",
          "    Using ONLY the context provided, answer the following question:",
          "    " ++ question,
          "",
          "    You should mention all the companies that are mentioned in the context. In your answer, I expect to see at least the company name, ticker, and the reason why you think it is relevant to the question.",
          "",
          "    Never make reference to the context in your answer. For example, do not say \"Based on the context provided, I can tell you that...\"",
          "",
          "    If there is not enough information in the context to answer the question, you should say \"My apologies, but I do not have enough information to answer that question.\"",
          "    ",
          "    " ])

/-- Embeds `generate_prompt` (app.py lines 84-91): context bundle first, then
the instruction template, concatenated. -/
def generate_prompt (index : QueryParams → List MatchEntry)
    (embed : String → List Int) (formatted_response : FormattedResponse) :
    Except PyErr String × List QEffect :=
  match get_augmented_context index embed formatted_response with
  | (Except.error e, effects) => (Except.error e, effects)
  | (Except.ok augmented_context, effects) =>
      match get_question formatted_response with
      | Except.error e => (Except.error e, effects)
      | Except.ok augmented_question =>
          (Except.ok (augmented_context ++ augmented_question), effects)

/-- The part of the extraction prompt (app.py lines 99-126) that precedes the
interpolated `{user_query}`. -/
def extractionPromptHead : String :=
  String.intercalate "\n"
    [ "",
      "    You are a pinecone vector database expert. I have indexed stock data into the vector database in the following structure:",
      "",
      "    metadata: \x7b",
      "        \"Analyst Recommendation\": \"string\"",
      "        \"Business Summary\": \"string\",",
      "        \"City\": \"string\",",
      "        \"Country\": \"string\",",
      "        \"Industry\": \"string\",",
      "        \"Market Cap\": \"number\",",
      "        \"Name\": \"string\",",
      "        \"PE Ratio\": \"number\",",
      "        \"Price\": \"number\",",
      "        \"Sector\": \"string\",",
      "        \"State\": \"string\",",
      "        \"Ticker\": \"string\",",
      "        \"Volume\": \"number\",",
      "    \x7d",
      "",
      "    For \"Analyst Recommendation\", the values can be \"buy\", \"hold\", or \"sell\".",
      "    For \"Sector\", the values can be \"Communication Services\", \"Consumer Discretionary\", \"Consumer Staples\", \"Energy\", \"Financials\", \"Healthcare\", \"Industrials\", \"Technology\", \"Materials\", \"Real Estate\", \"Utilities\".",
      "    For \"State\", the values are the 2-letter codes for the states in the United States.",
      "    For \"City\", the values are the names of cities.",
      "    For \"Country\", the values are the names of countries.",
      "",
      "    Now given the following user query:",
      "",
      "    <USER QUERY>",
      "    " ]

/-- The part of the extraction prompt (app.py lines 128-185) that follows the
interpolated `{user_query}`. -/
def extractionPromptTail : String :=
  String.intercalate "\n"
    [ "",
      "    </USER QUERY>",
      "",
      "    Extract the information from the user query that can be used to filter the vector database by metadata. ",
      "",
      "    I want you to respond in the following JSON format:",
      "",
      "    <JSON FORMAT>",
      "    \x7b",
      "        \"filter\": \x7b",
      "            \"Market Cap\": \x7b",
      "                \"$gte\": 10_000_000_000",
      "            \x7d,",
      "        \x7d,",
      "        \"question\": <the rest of the user query that cannot be used to filter the vector database using metadata>",
      "    \x7d",
      "",
      "    OR",
      "",
      "    \x7b",
      "        \"filter\": \x7b",
      "            \"$and\": [",
      "                \x7b",
      "                    \"Market Cap\": \x7b",
      "                        \"$gte\": 10_000_000_000",
      "                    \x7d, ",
      "                \x7d,",
      "                \x7b",
      "                    \"Sector\": \x7b",
      "                        \"$eq\": \"Technology\"",
      "                    \x7d,",
      "                \x7d,",
      "            ]",
      "        \x7d,",
      "        \"question\": <the rest of the user query that cannot be used to filter the vector database using metadata. It should be a question that can be used to query the vector database based on embeddings>",
      "    \x7d",
      "    </JSON FORMAT>",
      "",
      "    Note that for the filter you should only use the following operators:",
      "",
      "    Filter\t        Example\t                                                Description",
      "    $eq\t            \x7b\"genre\": \x7b\"$eq\": \"documentary\"\x7d\x7d\t                Matches vectors with the genre “documentary”.",
      "    $ne\t            \x7b\"genre\": \x7b\"$ne\": \"drama\"\x7d\x7d\t                        Matches vectors with a genre other than “drama”.",
      "    $gt\t            \x7b\"year\": \x7b\"$gt\": 2019\x7d\x7d\t                            Matches vectors with a year greater than 2019.",
      "    $gte\t        \x7b\"year\": \x7b\"$gte\": 2020\x7d\x7d\t                        Matches vectors with a year greater than or equal to 2020.",
      "    $lt\t            \x7b\"year\": \x7b\"$lt\": 2020\x7d\x7d\t                            Matches vectors with a year less than 2020.",
      "    $lte\t        \x7b\"year\": \x7b\"$lte\": 2020\x7d\x7d\t                        Matches vectors with a year less than or equal to 2020.",
      "    $in\t            \x7b\"genre\": \x7b\"$in\": [\"comedy\", \"documentary\"]\x7d\x7d\t    Matches vectors with the genre “comedy” or “documentary”.",
      "    $nin\t        \x7b\"genre\": \x7b\"$nin\": [\"comedy\", \"documentary\"]\x7d\x7d\t    Matches vectors with a genre other than “comedy” or “documentary”.",
      "    $exists\t        \x7b\"genre\": \x7b\"$exists\": true\x7d\x7d\t                    Matches vectors with the “genre” field.",
      "",
      "    Operator\t    Example\t                                                                        Description",
      "    $and\t        \x7b\"$and\": [\x7b\"genre\": \x7b\"$eq\": \"drama\"\x7d, \x7b\"year\": \x7b\"$gte\": 2020\"\x7d\x7d]\x7d\t    Matches vectors with the genre “drama” and a year greater than or equal to 2020.",
      "    $or\t            \x7b\"$or\": [\x7b\"genre\": \x7b\"$eq\": \"drama\"\x7d, \x7b\"year\": \x7b\"$gte\": 2020\"\x7d\x7d]\x7d\t    Matches vectors with the genre “drama” or a year greater than or equal to 2020.",
      "",
      "    If you aren\'t sure about the filter, you should not include it in the JSON. ",
      "",
      "    Please consider the all the above information when responding, and take your time in understanding the user query. If necessary break down the problem into smaller steps.",
      "    " ]

/-- The extraction prompt f-string of `explore` (app.py lines 99-185): fixed
text with `user_query` interpolated between the `<USER QUERY>` delimiters. -/
def extractionPrompt (user_query : String) : String :=
  extractionPromptHead ++ user_query ++ extractionPromptTail

/-- The request body of `POST /explore`; `request.json["user_query"]` raises
`KeyError` when the key is absent (`none`). -/
structure RequestBody where
  user_query : Option String

/-- Embeds the `explore` handler (app.py lines 93-197), with the completion
model (composed with `json.loads` of its JSON reply) as an opaque function.
Returns the jsonify payload with status 200 (or the escaping exception) and the
ordered list of external calls: the `user_query` key is read first (a missing
key raises before any model or index call), then the completion model is called
on the extraction prompt, then `generate_prompt` runs the retrieval. -/
def explore (index : QueryParams → List MatchEntry) (embed : String → List Int)
    (model : String → FormattedResponse) (body : RequestBody) :
    Except PyErr (String × Nat) × List QEffect :=
  match body.user_query with
  | none => (Except.error (PyErr.keyError "user_query"), [])
  | some user_query =>
      let eprompt := extractionPrompt user_query
      let formatted_response := model eprompt
      match generate_prompt index embed formatted_response with
      | (Except.error e, effects) =>
          (Except.error e, QEffect.modelCall eprompt :: effects)
      | (Except.ok prompt, effects) =>
          (Except.ok (prompt, 200), QEffect.modelCall eprompt :: effects)

/-! ## Concrete instances used to evaluate the definitions -/

/-- A provider record that carries only a business summary. -/
def demoInfo : String → Option Value := fun key =>
  if key = "longBusinessSummary" then some (Value.str "A company.") else none

/-- An environment in which every fetch and every upsert succeeds. -/
def envAllOk : Env :=
  { tickerInfo := fun _ => Except.ok demoInfo,
    upsertResult := fun _ _ => Except.ok () }

/-- An environment in which fetching `"T4"` raises and everything else
succeeds. -/
def envOneBad : Env :=
  { tickerInfo := fun s =>
      if s = "T4" then Except.error "fetch failed" else Except.ok demoInfo,
    upsertResult := fun _ _ => Except.ok () }

/-- An environment in which every fetch raises. -/
def envAllBad : Env :=
  { tickerInfo := fun _ => Except.error "down",
    upsertResult := fun _ _ => Except.ok () }

/-- A first-run state: empty tracking lists, both checkpoint files absent. -/
def emptyState : IngestState :=
  { successful_tickers := [], unsuccessful_tickers := [], fs := ⟨none, none⟩ }

/-- The state of a `PineconeUtils` instance after `_load_history` on a
filesystem whose success log holds `A` and `B` and whose failure log is
absent. -/
def loadedState : IngestState :=
  { successful_tickers := (loadHistory ⟨some ["A", "B"], none⟩).1,
    unsuccessful_tickers := (loadHistory ⟨some ["A", "B"], none⟩).2,
    fs := ⟨some ["A", "B"], none⟩ }

/-- A batch of ten symbols, of which exactly `"T4"` fails under `envOneBad`. -/
def tenTickers : List String :=
  ["T0", "T1", "T2", "T3", "T4", "T5", "T6", "T7", "T8", "T9"]

/-- A filter referencing the field name `Foo`, which is not in the metadata
schema. -/
def badFilter : Value := Value.obj [("Foo", Value.obj [("$eq", Value.num 1)])]

/-- A vector index returning no match for any query. -/
def emptyIndex : QueryParams → List MatchEntry := fun _ => []

/-- A trivial embedding function. -/
def zeroEmbed : String → List Int := fun _ => []

/-- The lines of an optional log file (an absent file has no lines). -/
def fileLines (file : Option (List String)) : List String :=
  file.getD []

/-- One list extends another by appending: nothing is removed or reordered. -/
def ExtendsList (old new : List String) : Prop :=
  ∃ tail, new = old ++ tail

/-! ## Helper lemmas -/

theorem contains_eq_true_of_mem {l : List String} {a : String} (h : a ∈ l) :
    l.contains a = true :=
  List.elem_eq_true_of_mem h

theorem contains_eq_false_of_not_mem {l : List String} {a : String} (h : a ∉ l) :
    l.contains a = false := by
  cases hc : l.contains a
  · rfl
  · exact absurd (List.mem_of_elem_eq_true hc) h

theorem lookupField_businessSummary (info : String → Option Value) :
    lookupField (stockProperties info) "Business Summary" =
      some ((info "longBusinessSummary").getD Value.null) := rfl

theorem ExtendsList.trans {a b c : List String}
    (h1 : ExtendsList a b) (h2 : ExtendsList b c) : ExtendsList a c := by
  obtain ⟨t1, rfl⟩ := h1
  obtain ⟨t2, rfl⟩ := h2
  exact ⟨t1 ++ t2, by simp⟩

/-- A skipped symbol (already in the in-memory success list) produces the
"already processed" message, leaves the whole state untouched, and performs no
external work. -/
theorem processStock_skip (env : Env) (st : IngestState) (t : String)
    (h : t ∈ st.successful_tickers) :
    processStock env st t = ("Already processed " ++ t, st, []) := by
  simp [processStock, h]

/-- `_process_stock` either skips (state unchanged), records a failure, or
records a success. -/
theorem processStock_state_shape (env : Env) (st : IngestState) (t : String) :
    (processStock env st t).2.1 = st ∨
    (processStock env st t).2.1 = trackFailure st t ∨
    (processStock env st t).2.1 = trackSuccess st t := by
  by_cases hm : t ∈ st.successful_tickers
  · left; simp [processStock, hm]
  · cases hi : getStockInfo env t with
    | error e => right; left; simp [processStock, hm, hi]
    | ok d =>
      cases hl : lookupField d "Business Summary" with
      | none => right; left; simp [processStock, hm, hi, hl]
      | some v =>
        cases hu : env.upsertResult v d with
        | error e => right; left; simp [processStock, hm, hi, hl, hu]
        | ok u => right; right; simp [processStock, hm, hi, hl, hu]

/-- One `_process_stock` call only appends to the in-memory success list and to
the success log file. -/
theorem processStock_success_monotone (env : Env) (st : IngestState) (t : String) :
    ExtendsList st.successful_tickers (processStock env st t).2.1.successful_tickers ∧
    ExtendsList (fileLines st.fs.successFile)
      (fileLines (processStock env st t).2.1.fs.successFile) := by
  rcases processStock_state_shape env st t with h | h | h <;> rw [h]
  · exact ⟨⟨[], by simp⟩, ⟨[], by simp⟩⟩
  · exact ⟨⟨[], by simp [trackFailure]⟩, ⟨[], by simp [trackFailure]⟩⟩
  · exact ⟨⟨[t], rfl⟩, ⟨[t], by simp [trackSuccess, appendLine, fileLines]⟩⟩

/-- A whole batch only appends to the in-memory success list and to the success
log file. -/
theorem batch_success_monotone (env : Env) (tickers : List String) (st : IngestState) :
    ExtendsList st.successful_tickers
      (parallel_process_stocks env st tickers).1.successful_tickers ∧
    ExtendsList (fileLines st.fs.successFile)
      (fileLines (parallel_process_stocks env st tickers).1.fs.successFile) := by
  induction tickers generalizing st with
  | nil => exact ⟨⟨[], by simp [parallel_process_stocks]⟩, ⟨[], by simp [parallel_process_stocks]⟩⟩
  | cons t ts ih =>
    have h1 := processStock_success_monotone env st t
    have h2 := ih (processStock env st t).2.1
    exact ⟨ExtendsList.trans h1.1 h2.1, ExtendsList.trans h1.2 h2.2⟩

/-- A clean symbol present among a log file's lines survives the
strip-and-drop-blank parsing of `_load_history`. -/
theorem mem_parseTickerLines {sym : String} {lines : List String}
    (htrim : pyStrip sym = sym) (hne : sym ≠ "") (h : sym ∈ lines) :
    sym ∈ parseTickerLines lines := by
  unfold parseTickerLines
  rw [List.mem_filterMap]
  refine ⟨sym, h, ?_⟩
  rw [htrim]
  simp [hne]

theorem lookupStock_ticker (info : String → Option Value) :
    lookupField (stockProperties info) "Ticker" =
      some ((info "symbol").getD infoNotAvailable) := rfl

theorem lookupStock_name (info : String → Option Value) :
    lookupField (stockProperties info) "Name" =
      some ((info "longName").getD infoNotAvailable) := rfl

theorem lookupStock_city (info : String → Option Value) :
    lookupField (stockProperties info) "City" =
      some ((info "city").getD infoNotAvailable) := rfl

theorem lookupStock_state (info : String → Option Value) :
    lookupField (stockProperties info) "State" =
      some ((info "state").getD infoNotAvailable) := rfl

theorem lookupStock_country (info : String → Option Value) :
    lookupField (stockProperties info) "Country" =
      some ((info "country").getD infoNotAvailable) := rfl

theorem lookupStock_industry (info : String → Option Value) :
    lookupField (stockProperties info) "Industry" =
      some ((info "industry").getD infoNotAvailable) := rfl

theorem lookupStock_sector (info : String → Option Value) :
    lookupField (stockProperties info) "Sector" =
      some ((info "sector").getD infoNotAvailable) := rfl

theorem lookupStock_marketCap (info : String → Option Value) :
    lookupField (stockProperties info) "Market Cap" =
      some ((info "marketCap").getD infoNotAvailable) := rfl

theorem lookupStock_volume (info : String → Option Value) :
    lookupField (stockProperties info) "Volume" =
      some ((info "averageVolume").getD infoNotAvailable) := rfl

theorem lookupStock_peRatio (info : String → Option Value) :
    lookupField (stockProperties info) "PE Ratio" =
      some ((info "trailingPE").getD infoNotAvailable) := rfl

theorem lookupStock_price (info : String → Option Value) :
    lookupField (stockProperties info) "Price" =
      some ((info "currentPrice").getD infoNotAvailable) := rfl

theorem lookupStock_analystRec (info : String → Option Value) :
    lookupField (stockProperties info) "Analyst Recommendation" =
      some ((info "recommendationKey").getD infoNotAvailable) := rfl

/-! ## Claim theorems -/

/-- Claim C1, counterexample: `get_augmented_context` performs no validation of
the parsed filter.  With the filter referencing the unknown field `Foo`, the
call is not rejected (it returns a bundle) and the very same filter is passed
to the vector-index query, refuting "a filter referencing an unknown field ...
is rejected (fail closed) and never reaches the index query". -/
theorem c1_counterexample :
    get_augmented_context emptyIndex zeroEmbed ⟨some badFilter, some "q"⟩ =
      (Except.ok "<CONTEXT>\n\n-------\n</CONTEXT>\n\n\n\n",
       [QEffect.embedCall "q",
        QEffect.indexQuery ⟨NAMESPACE, [], badFilter, 10, true⟩]) := rfl

/-- Claim C1 (amended): no field/operator validation exists in the code: for
every extraction result carrying a filter, `get_augmented_context` forwards the
parsed filter verbatim as the `filter` argument of the vector-index query —
unknown fields or operators included — and nothing is rejected before the
query. -/
theorem c1_filter_forwarded_unvalidated (index : QueryParams → List MatchEntry)
    (embed : String → List Int) (filter : Value) (question : String) :
    (get_augmented_context index embed ⟨some filter, some question⟩).2 =
      [QEffect.embedCall question,
       QEffect.indexQuery ⟨NAMESPACE, embed question, filter, 10, true⟩] := rfl

/-- Claim C2: a symbol already present in the loaded success list makes
`_process_stock` return the "already processed" outcome with no state change
(no log append, no in-memory append) and no external work (no fetch, no
embed-and-upsert effect). -/
theorem c2_already_processed_no_work (env : Env) (st : IngestState) (t : String)
    (h : t ∈ st.successful_tickers) :
    processStock env st t = ("Already processed " ++ t, st, []) :=
  processStock_skip env st t h

/-- Claim C2 witness: with the success log loaded as `{A, B}` and the batch
`[A, B, C]`, the skip theorem applies to `A`, and the whole batch performs
external work (fetch and embed-and-upsert) only for `C`. -/
theorem c2_witness :
    ("A" ∈ loadedState.successful_tickers) ∧
    processStock envAllOk loadedState "A" = ("Already processed " ++ "A", loadedState, []) ∧
    (parallel_process_stocks envAllOk loadedState ["A", "B", "C"]).2.2 =
      [IEffect.fetch "C", IEffect.upsert "C"] ∧
    (parallel_process_stocks envAllOk loadedState ["A", "B", "C"]).1.successful_tickers =
      ["A", "B", "C"] := by
  refine ⟨by decide, c2_already_processed_no_work envAllOk loadedState "A" (by decide), ?_, ?_⟩
  · decide
  · decide

/-- Claim C3: for every filter/question pair and every match set returned by
the index, the bundle is the take-10 prefix of the matches' stored texts, in
returned order, joined by the fixed separator and wrapped by the delimiters;
the snippet list has exactly `min(matches, 10)` elements, and the result is
`Except.ok` for every match set (an empty match set gives delimiters with no
snippets, never an error). -/
theorem c3_context_bundle_bound (index : QueryParams → List MatchEntry)
    (embed : String → List Int) (filter : Value) (question : String) :
    (get_augmented_context index embed ⟨some filter, some question⟩).1 =
      Except.ok ("<CONTEXT>\n" ++
        String.intercalate "\n\n-------\n\n"
          (((index ⟨NAMESPACE, embed question, filter, 10, true⟩).map
              (fun item => item.text)).take 10) ++
        "\n-------\n</CONTEXT>\n\n\n\n") ∧
    (((index ⟨NAMESPACE, embed question, filter, 10, true⟩).map
        (fun item => item.text)).take 10).length =
      min (index ⟨NAMESPACE, embed question, filter, 10, true⟩).length 10 := by
  refine ⟨rfl, ?_⟩
  simp [List.length_take, Nat.min_comm]

/-- Claim C4, counterexample: when the provider record omits every key, the
constructed dictionary maps `Business Summary` to `None` (null), not to the
"Information not available" sentinel — the thirteenth field violates the
claim. -/
theorem c4_counterexample :
    lookupField (stockProperties (fun _ => none)) "Business Summary" = some Value.null ∧
    Value.null ≠ infoNotAvailable :=
  ⟨rfl, fun h => Value.noConfusion h⟩

/-- Claim C4 (amended): for twelve of the thirteen fields (all except
`Business Summary`) a missing provider value yields the explicit
"Information not available" sentinel. -/
theorem c4_missing_fields_use_sentinel (stock_info : String → Option Value) :
    (stock_info "symbol" = none →
      lookupField (stockProperties stock_info) "Ticker" = some infoNotAvailable) ∧
    (stock_info "longName" = none →
      lookupField (stockProperties stock_info) "Name" = some infoNotAvailable) ∧
    (stock_info "city" = none →
      lookupField (stockProperties stock_info) "City" = some infoNotAvailable) ∧
    (stock_info "state" = none →
      lookupField (stockProperties stock_info) "State" = some infoNotAvailable) ∧
    (stock_info "country" = none →
      lookupField (stockProperties stock_info) "Country" = some infoNotAvailable) ∧
    (stock_info "industry" = none →
      lookupField (stockProperties stock_info) "Industry" = some infoNotAvailable) ∧
    (stock_info "sector" = none →
      lookupField (stockProperties stock_info) "Sector" = some infoNotAvailable) ∧
    (stock_info "marketCap" = none →
      lookupField (stockProperties stock_info) "Market Cap" = some infoNotAvailable) ∧
    (stock_info "averageVolume" = none →
      lookupField (stockProperties stock_info) "Volume" = some infoNotAvailable) ∧
    (stock_info "trailingPE" = none →
      lookupField (stockProperties stock_info) "PE Ratio" = some infoNotAvailable) ∧
    (stock_info "currentPrice" = none →
      lookupField (stockProperties stock_info) "Price" = some infoNotAvailable) ∧
    (stock_info "recommendationKey" = none →
      lookupField (stockProperties stock_info) "Analyst Recommendation" =
        some infoNotAvailable) :=
  ⟨fun h => by rw [lookupStock_ticker, h]; rfl,
   fun h => by rw [lookupStock_name, h]; rfl,
   fun h => by rw [lookupStock_city, h]; rfl,
   fun h => by rw [lookupStock_state, h]; rfl,
   fun h => by rw [lookupStock_country, h]; rfl,
   fun h => by rw [lookupStock_industry, h]; rfl,
   fun h => by rw [lookupStock_sector, h]; rfl,
   fun h => by rw [lookupStock_marketCap, h]; rfl,
   fun h => by rw [lookupStock_volume, h]; rfl,
   fun h => by rw [lookupStock_peRatio, h]; rfl,
   fun h => by rw [lookupStock_price, h]; rfl,
   fun h => by rw [lookupStock_analystRec, h]; rfl⟩

/-- Claim C4 witness: the amended theorem evaluated on the everywhere-missing
provider record, all twelve sentinel fields discharged. -/
theorem c4_witness :
    lookupField (stockProperties (fun _ => none)) "Ticker" = some infoNotAvailable ∧
    lookupField (stockProperties (fun _ => none)) "Name" = some infoNotAvailable ∧
    lookupField (stockProperties (fun _ => none)) "City" = some infoNotAvailable ∧
    lookupField (stockProperties (fun _ => none)) "State" = some infoNotAvailable ∧
    lookupField (stockProperties (fun _ => none)) "Country" = some infoNotAvailable ∧
    lookupField (stockProperties (fun _ => none)) "Industry" = some infoNotAvailable ∧
    lookupField (stockProperties (fun _ => none)) "Sector" = some infoNotAvailable ∧
    lookupField (stockProperties (fun _ => none)) "Market Cap" = some infoNotAvailable ∧
    lookupField (stockProperties (fun _ => none)) "Volume" = some infoNotAvailable ∧
    lookupField (stockProperties (fun _ => none)) "PE Ratio" = some infoNotAvailable ∧
    lookupField (stockProperties (fun _ => none)) "Price" = some infoNotAvailable ∧
    lookupField (stockProperties (fun _ => none)) "Analyst Recommendation" =
      some infoNotAvailable := by
  have h := c4_missing_fields_use_sentinel (fun _ => none)
  exact ⟨h.1 rfl, h.2.1 rfl, h.2.2.1 rfl, h.2.2.2.1 rfl, h.2.2.2.2.1 rfl,
    h.2.2.2.2.2.1 rfl, h.2.2.2.2.2.2.1 rfl, h.2.2.2.2.2.2.2.1 rfl,
    h.2.2.2.2.2.2.2.2.1 rfl, h.2.2.2.2.2.2.2.2.2.1 rfl,
    h.2.2.2.2.2.2.2.2.2.2.1 rfl, h.2.2.2.2.2.2.2.2.2.2.2 rfl⟩

/-- Claim C5, counterexample: a parsed response without the `filter` key makes
`get_augmented_context` raise `KeyError` and issue no index query at all,
refuting "treats it as no metadata restriction (match-all) and proceeds to
query the index, rather than failing". -/
theorem c5_counterexample :
    get_augmented_context emptyIndex zeroEmbed ⟨none, some "what is new"⟩ =
      (Except.error (PyErr.keyError "filter"), []) := rfl

/-- Claim C5 (amended): for every extraction response omitting the `filter`
key, `get_augmented_context` raises `KeyError "filter"` before any embedding or
index call, and at the endpoint level the error escapes `explore` with only the
completion call performed — there is no match-all fallback. -/
theorem c5_missing_filter_raises (index : QueryParams → List MatchEntry)
    (embed : String → List Int) (oq : Option String) :
    get_augmented_context index embed ⟨none, oq⟩ =
      (Except.error (PyErr.keyError "filter"), []) ∧
    (∀ uq : String,
      explore index embed (fun _ => ⟨none, oq⟩) ⟨some uq⟩ =
        (Except.error (PyErr.keyError "filter"),
         [QEffect.modelCall (extractionPrompt uq)])) :=
  ⟨rfl, fun _ => rfl⟩

/-- Claim C6: `_load_history` returns an empty list for each checkpoint file
that is absent, the two files are read independently (each file's result does
not depend on the other file), and loading is total — a missing file is the
handled `FileNotFoundError` branch, not a propagated error. -/
theorem c6_load_history_missing_files (f g : Option (List String)) :
    (loadHistory ⟨none, g⟩).1 = [] ∧
    (loadHistory ⟨f, none⟩).2 = [] ∧
    loadHistory ⟨none, none⟩ = ([], []) ∧
    (loadHistory ⟨f, g⟩).1 = (loadHistory ⟨f, none⟩).1 ∧
    (loadHistory ⟨f, g⟩).2 = (loadHistory ⟨none, g⟩).2 := by
  cases f <;> cases g <;> exact ⟨rfl, rfl, rfl, rfl, rfl⟩

/-- Claim C7: for a symbol not yet marked successful, a fetch exception or an
embed/upsert exception is swallowed: `_process_stock` appends the symbol to the
failure log and the in-memory failure list and returns an ERROR message
(conjuncts 1 and 2), and a batch always continues past any symbol's result
(conjunct 3: the tail of the batch is processed from the post-symbol state
whatever that symbol's outcome was). -/
theorem c7_symbol_failures_recorded (env : Env) (st : IngestState) (t : String)
    (hmem : t ∉ st.successful_tickers) :
    (∀ e, env.tickerInfo t = Except.error e →
      processStock env st t =
        ("ERROR processing " ++ t ++ ": " ++ e, trackFailure st t, [IEffect.fetch t])) ∧
    (∀ info e, env.tickerInfo t = Except.ok info →
      env.upsertResult ((info "longBusinessSummary").getD Value.null)
          (stockProperties info) = Except.error e →
      processStock env st t =
        ("ERROR processing " ++ t ++ ": " ++ e, trackFailure st t,
         [IEffect.fetch t, IEffect.upsert t])) ∧
    (∀ ts, parallel_process_stocks env st (t :: ts) =
      ((parallel_process_stocks env (processStock env st t).2.1 ts).1,
       (processStock env st t).1 ::
         (parallel_process_stocks env (processStock env st t).2.1 ts).2.1,
       (processStock env st t).2.2 ++
         (parallel_process_stocks env (processStock env st t).2.1 ts).2.2)) := by
  refine ⟨?_, ?_, fun ts => rfl⟩
  · intro e he
    simp [processStock, getStockInfo, hmem, he]
  · intro info e hi hu
    simp [processStock, getStockInfo, hmem, hi, lookupField_businessSummary, hu]

/-- Claim C7 witness: in a ten-symbol batch where exactly `T4` always fails its
fetch, the failure theorem applies to `T4`, and the finished batch has exactly
one Failure record (`T4`, in the failure log and list) and nine Success
records. -/
theorem c7_witness :
    ("T4" ∉ emptyState.successful_tickers) ∧
    envOneBad.tickerInfo "T4" = Except.error "fetch failed" ∧
    processStock envOneBad emptyState "T4" =
      ("ERROR processing " ++ "T4" ++ ": " ++ "fetch failed", trackFailure emptyState "T4",
       [IEffect.fetch "T4"]) ∧
    (parallel_process_stocks envOneBad emptyState tenTickers).1.unsuccessful_tickers =
      ["T4"] ∧
    (parallel_process_stocks envOneBad emptyState tenTickers).1.successful_tickers =
      ["T0", "T1", "T2", "T3", "T5", "T6", "T7", "T8", "T9"] ∧
    fileLines (parallel_process_stocks envOneBad emptyState tenTickers).1.fs.failureFile =
      ["T4"] ∧
    fileLines (parallel_process_stocks envOneBad emptyState tenTickers).1.fs.successFile =
      ["T0", "T1", "T2", "T3", "T5", "T6", "T7", "T8", "T9"] := by
  refine ⟨by decide, rfl,
    (c7_symbol_failures_recorded envOneBad emptyState "T4" (by decide)).1 "fetch failed" rfl,
    ?_, ?_, ?_, ?_⟩
  · decide
  · decide
  · decide
  · decide

/-- Claim C8: the recorded success set only grows: after any batch, the
in-memory success list and the success log are the old ones extended by
appending (conjuncts 1 and 2); a symbol in the in-memory success list of any
state is skipped by `_process_stock` (conjunct 3); and a clean symbol present
in the persisted success log is still in the success list produced by
`_load_history` on a future run, hence skipped there too (conjunct 4). -/
theorem c8_success_set_monotone (env : Env) (st : IngestState) (tickers : List String) :
    ExtendsList st.successful_tickers
      (parallel_process_stocks env st tickers).1.successful_tickers ∧
    ExtendsList (fileLines st.fs.successFile)
      (fileLines (parallel_process_stocks env st tickers).1.fs.successFile) ∧
    (∀ sym st2, sym ∈ IngestState.successful_tickers st2 →
      processStock env st2 sym = ("Already processed " ++ sym, st2, [])) ∧
    (∀ sym fs2, pyStrip sym = sym → sym ≠ "" →
      sym ∈ fileLines (FileSystem.successFile fs2) → sym ∈ (loadHistory fs2).1) := by
  refine ⟨(batch_success_monotone env tickers st).1, (batch_success_monotone env tickers st).2,
    fun sym st2 h => processStock_skip env st2 sym h, ?_⟩
  intro sym fs2 htrim hne hmem
  cases hf : fs2.successFile with
  | none => rw [hf] at hmem; exact absurd hmem (by simp [fileLines])
  | some lines =>
      rw [hf] at hmem
      have : sym ∈ parseTickerLines lines :=
        mem_parseTickerLines htrim hne (by simpa [fileLines] using hmem)
      simp [loadHistory, hf, this]

/-- Claim C8 witness: the monotonicity theorem applied to a loaded state and to
a one-symbol run whose persisted log then feeds a future `_load_history`. -/
theorem c8_witness :
    ("A" ∈ loadedState.successful_tickers ∧
      processStock envAllOk loadedState "A" = ("Already processed " ++ "A", loadedState, [])) ∧
    "A" ∈ (loadHistory (parallel_process_stocks envAllOk emptyState ["A"]).1.fs).1 := by
  have h := c8_success_set_monotone envAllOk emptyState ["A"]
  constructor
  · exact ⟨by decide, h.2.2.1 "A" loadedState (by decide)⟩
  · exact h.2.2.2 "A" (parallel_process_stocks envAllOk emptyState ["A"]).1.fs
      (by decide) (by decide) (by decide)

/-- Claim C9: membership in the failure collections is never consulted:
replacing the in-memory failure list changes neither the message, nor the
external work, nor the success-side updates of `_process_stock` (conjunct 1);
every symbol outside the success list is re-attempted starting with a fresh
fetch (conjunct 2); and on a repeated failure the symbol is appended to the
failure list again, so the failure records may contain duplicates
(conjunct 3). -/
theorem c9_failure_set_not_consulted (env : Env) (st : IngestState) (t : String)
    (u : List String) :
    ((processStock env { st with unsuccessful_tickers := u } t).1 =
        (processStock env st t).1 ∧
      (processStock env { st with unsuccessful_tickers := u } t).2.2 =
        (processStock env st t).2.2 ∧
      (processStock env { st with unsuccessful_tickers := u } t).2.1.successful_tickers =
        (processStock env st t).2.1.successful_tickers ∧
      (processStock env { st with unsuccessful_tickers := u } t).2.1.fs =
        (processStock env st t).2.1.fs) ∧
    (t ∉ st.successful_tickers →
      ∃ rest, (processStock env st t).2.2 = IEffect.fetch t :: rest) ∧
    (∀ e, t ∉ st.successful_tickers → env.tickerInfo t = Except.error e →
      (processStock env st t).2.1.unsuccessful_tickers = st.unsuccessful_tickers ++ [t] ∧
      (st.unsuccessful_tickers ++ [t]).count t = st.unsuccessful_tickers.count t + 1) := by
  refine ⟨?_, ?_, ?_⟩
  · by_cases hm : t ∈ st.successful_tickers
    · simp [processStock, hm]
    · cases hi : getStockInfo env t with
      | error e => simp [processStock, hm, hi, trackFailure]
      | ok d =>
        cases hl : lookupField d "Business Summary" with
        | none => simp [processStock, hm, hi, hl, trackFailure]
        | some v =>
          cases hu : env.upsertResult v d with
          | error e => simp [processStock, hm, hi, hl, hu, trackFailure]
          | ok w => simp [processStock, hm, hi, hl, hu, trackSuccess]
  · intro hm
    cases hi : getStockInfo env t with
    | error e => exact ⟨[], by simp [processStock, hm, hi]⟩
    | ok d =>
      cases hl : lookupField d "Business Summary" with
      | none => exact ⟨[], by simp [processStock, hm, hi, hl]⟩
      | some v =>
        cases hu : env.upsertResult v d with
        | error e => exact ⟨[IEffect.upsert t], by simp [processStock, hm, hi, hl, hu]⟩
        | ok w => exact ⟨[IEffect.upsert t], by simp [processStock, hm, hi, hl, hu]⟩
  · intro e hm he
    constructor
    · simp [processStock, getStockInfo, hm, he, trackFailure]
    · simp [List.count_append]

/-- Claim C9 witness: under an always-failing fetch, a symbol already recorded
as a failure is re-attempted (fresh fetch effect) and appended to the failure
list a second time. -/
theorem c9_witness :
    ((processStock envAllBad ⟨[], ["X"], ⟨none, some ["X"]⟩⟩ "X").2.1.unsuccessful_tickers =
        ["X"] ++ ["X"] ∧
      (["X"] ++ ["X"]).count "X" = (["X"] : List String).count "X" + 1) ∧
    (∃ rest, (processStock envAllBad ⟨[], ["X"], ⟨none, some ["X"]⟩⟩ "X").2.2 =
      IEffect.fetch "X" :: rest) := by
  have h := c9_failure_set_not_consulted envAllBad ⟨[], ["X"], ⟨none, some ["X"]⟩⟩ "X" []
  exact ⟨h.2.2 "down" (by decide) rfl, h.2.1 (by decide)⟩

/-- Claim C10: reading `data["user_query"]` is unguarded: a body without the
key makes `explore` raise `KeyError "user_query"` with no model or index call
performed (empty effect list), and with the key present the completion model is
called first, on the extraction prompt interpolating exactly that value. -/
theorem c10_user_query_unguarded (index : QueryParams → List MatchEntry)
    (embed : String → List Int) (model : String → FormattedResponse) :
    explore index embed model ⟨none⟩ = (Except.error (PyErr.keyError "user_query"), []) ∧
    (∀ uq : String, ∃ effects,
      (explore index embed model ⟨some uq⟩).2 =
        QEffect.modelCall (extractionPrompt uq) :: effects ∧
      extractionPrompt uq = extractionPromptHead ++ uq ++ extractionPromptTail) := by
  refine ⟨rfl,
    fun uq => ⟨(generate_prompt index embed (model (extractionPrompt uq))).2, ?_, rfl⟩⟩
  show (explore index embed model ⟨some uq⟩).2 = _
  unfold explore
  rcases hg : generate_prompt index embed (model (extractionPrompt uq)) with ⟨res, effects⟩
  rcases res with e | p <;> simp [hg]

end FinLLM
